import Mathlib

/-!
Shallow embedding of the `webm-converter` repository.

The repository's sources contain the Cloudflare edge worker
(`src/worker/index.ts`), a Dockerfile and a deploy script.  The Rust core
server (job registry, encoder orchestrator, color sampler, sweeper) that the
container runs is not among the sources, so the parts of it that some claims
need are modelled from the specification and marked as such in their doc
comments.  Everything else is translated from `src/worker/index.ts`.
-/

namespace Webm

/-- Model of locating the first occurrence of a separator inside a JS string
(both as lists of characters): returns the text before the first occurrence
of `sep` and the text after it, or `none` when `sep` does not occur.  This is
the primitive behind `String.prototype.split` and `String.prototype.includes`
as used by the worker. -/
def findSplit (sep : List Char) : List Char → Option (List Char × List Char)
  | [] => none
  | c :: cs =>
    if sep.isPrefixOf (c :: cs) then some ([], (c :: cs).drop sep.length)
    else
      match findSplit sep cs with
      | none => none
      | some (before, after) => some (c :: before, after)

/-- Model of JS `s.split(sep)[1]` (used at `src/worker/index.ts:111` and
`src/worker/index.ts:140`): element 1 of the split is the chunk between the
first and the second occurrence of the separator (running to the end of the
string when there is no second occurrence), and is absent when the separator
does not occur at all. -/
def splitSecond (sep s : List Char) : Option (List Char) :=
  match findSplit sep s with
  | none => none
  | some (_, after) =>
    match findSplit sep after with
    | none => some after
    | some (chunk, _) => some chunk

/-- Model of JS `String.prototype.includes` (used at `src/worker/index.ts:97`). -/
def jsIncludes (s sub : String) : Bool := (findSplit sub.data s.data).isSome

/-- Model of JS `String.prototype.startsWith` on pathnames
(used at `src/worker/index.ts:109` and `src/worker/index.ts:138`). -/
def jsStartsWith (s pat : List Char) : Bool := pat.isPrefixOf s

/-- Model of an incoming HTTP request as the worker sees it: the full `url`,
the parsed `url.pathname` (as a character list so that the JS string
operations of the worker can be reasoned about), the method, the headers in
the canonical form the Fetch `Headers` iterator exposes (lowercase names,
values of same-named headers already combined), and the body stream. -/
structure WRequest where
  url : String
  pathname : List Char
  method : String
  headers : List (String × String)
  body : Option String
deriving DecidableEq, Repr

/-- Model of an HTTP response: status code, body text and headers. -/
structure WResponse where
  status : Nat
  body : String
  headers : List (String × String)
deriving DecidableEq, Repr

/-- Outcome of the `Promise.race` between a `container.fetch(...)` call and
the route's timeout promise: the container's fetch resolves first, the
timeout rejection fires first, or the container's fetch rejects first with an
error whose message is `msg`. -/
inductive ContainerOutcome where
  | responds (resp : WResponse)
  | timedOut
  | failed (msg : String)
deriving DecidableEq, Repr

/-- Result of one invocation of the worker's `fetch` handler, together with
the observable routing facts the claims are about: the response sent to the
caller, the id key passed to `getContainer` (`none` when no container was
selected), the request forwarded to the selected container (`none` when
nothing was forwarded), and whether `getHealthyContainer` was invoked on the
way. -/
structure RouteResult where
  response : WResponse
  containerKey : Option (List Char)
  forwarded : Option WRequest
  healthChecked : Bool
deriving DecidableEq, Repr

/-- Upload route timeout in milliseconds (`src/worker/index.ts:82`). -/
def uploadTimeoutMs : Nat := 25000

/-- Status route timeout in milliseconds (`src/worker/index.ts:116`). -/
def statusTimeoutMs : Nat := 5000

/-- Download route timeout in milliseconds (`src/worker/index.ts:145`). -/
def downloadTimeoutMs : Nat := 30000

/-- Health-check timeout of `getHealthyContainer` in milliseconds
(`src/worker/index.ts:32`). -/
def healthCheckTimeoutMs : Nat := 2000

/-- Pause between `getHealthyContainer` attempts in milliseconds
(`src/worker/index.ts:43`). -/
def healthRetryPauseMs : Nat := 1000

/-- Default `maxRetries` of `getHealthyContainer` (`src/worker/index.ts:24`). -/
def healthMaxRetries : Nat := 3

/-- Model of `JSON.stringify` on the flat string-valued object literals the
worker builds: `\x7b"k1":"v1","k2":"v2"\x7d`. -/
def jsonObj (fields : List (String × String)) : String :=
  "\x7b" ++
    String.intercalate "," (fields.map fun f => "\"" ++ f.1 ++ "\":\"" ++ f.2 ++ "\"") ++
    "\x7d"

/-- The `Content-Type: application/json` headers the worker attaches to every
response it builds itself. -/
def jsonHeaders : List (String × String) := [("content-type", "application/json")]

/-- Body of the worker's own 404 response for unknown paths
(`src/worker/index.ts:168`). -/
def workerNotFoundBody : String :=
  "\x7b\"error\":\"Not found\",\"available_endpoints\":[\"POST /upload\",\"GET /status/\x7bjob_id\x7d\",\"GET /download/\x7bjob_id\x7d\"]\x7d"

/-- Error body `JSON.stringify(\x7b error, details \x7d)` used by the catch
handlers of the three proxy routes. -/
def errorBody (err details : String) : String :=
  jsonObj [("error", err), ("details", details)]

/-- Building the headers of the forwarded upload request,
`\x7b...Object.fromEntries(request.headers), 'X-Job-Id': jobId\x7d`
(`src/worker/index.ts:72`), under Fetch semantics: iterating
`request.headers` yields the canonical lowercase combined map, the extra
record key is appended to the header list, and appending a name that is
already present (case-insensitively) combines the two values with `", "` in
the canonical view.  The name is therefore stored lowercase here. -/
def headersAppendCombine : List (String × String) → String → String → List (String × String)
  | [], n, v => [(n, v)]
  | (m, w) :: t, n, v =>
    if m = n then (m, w ++ ", " ++ v) :: t
    else (m, w) :: headersAppendCombine t n v

/-- The upload route's catch handler (`src/worker/index.ts:93`): message of
the thrown error in, response out.  `isTimeout` is
`errorMessage.includes('timeout')`. -/
def uploadCatch (msg : String) : WResponse :=
  if jsIncludes msg "timeout" then
    ⟨504, errorBody "Upload timeout - file too large" msg, jsonHeaders⟩
  else
    ⟨500, errorBody "Upload failed" msg, jsonHeaders⟩

/-- Per-attempt outcome of one iteration of `getHealthyContainer`
(`src/worker/index.ts:25`): the health check responded ok, it responded
non-ok, or it threw (health-check timeout or fetch rejection). -/
inductive AttemptOutcome where
  | healthy
  | unhealthy
  | errored
deriving DecidableEq, Repr

/-- Model of `getHealthyContainer` (`src/worker/index.ts:24`): the loop body,
parameterised by the outcome each attempt would observe; returns the attempt
index whose (randomly drawn) container is returned, or `none` for the final
`throw new Error('No healthy container available')`. -/
def getHealthyContainerAux (outcome : Nat → AttemptOutcome) : Nat → Nat → Option Nat
  | _, 0 => none
  | attempt, fuel + 1 =>
    match outcome attempt with
    | .healthy => some attempt
    | _ => getHealthyContainerAux outcome (attempt + 1) fuel

/-- Model of `getHealthyContainer(env)` with the default `maxRetries = 3`. -/
def getHealthyContainer (outcome : Nat → AttemptOutcome) : Option Nat :=
  getHealthyContainerAux outcome 0 healthMaxRetries

/-- The worker's `fetch` handler (`src/worker/index.ts:51`), translated
branch by branch.  `jobId` is the value `crypto.randomUUID()` returns at
`src/worker/index.ts:66` (only the upload route uses it), and `oc` is the
outcome of the race between the container fetch and the route's timeout.
No branch invokes `getHealthyContainer`, which the source defines but never
calls, so `healthChecked` is recorded on every path. -/
def workerFetch (req : WRequest) (jobId : String) (oc : ContainerOutcome) : RouteResult :=
  if req.pathname = "/health".data then
    { response := ⟨200, jsonObj [("status", "ok")], jsonHeaders⟩,
      containerKey := none, forwarded := none, healthChecked := false }
  else if req.pathname = "/upload".data ∧ req.method = "POST" then
    let fwd : WRequest :=
      { url := req.url, pathname := req.pathname, method := req.method,
        headers := headersAppendCombine req.headers "x-job-id" jobId,
        body := req.body }
    match oc with
    | .responds r =>
        { response := r, containerKey := some jobId.data,
          forwarded := some fwd, healthChecked := false }
    | .timedOut =>
        { response := uploadCatch "Upload timeout", containerKey := some jobId.data,
          forwarded := some fwd, healthChecked := false }
    | .failed msg =>
        { response := uploadCatch msg, containerKey := some jobId.data,
          forwarded := some fwd, healthChecked := false }
  else if jsStartsWith req.pathname "/status/".data ∧ req.method = "GET" then
    let jid := (splitSecond "/status/".data req.pathname).getD []
    match oc with
    | .responds r =>
        { response := r, containerKey := some jid,
          forwarded := some req, healthChecked := false }
    | .timedOut =>
        { response := ⟨500, errorBody "Failed to check status" "Error: Status check timeout",
                       jsonHeaders⟩,
          containerKey := some jid, forwarded := some req, healthChecked := false }
    | .failed msg =>
        { response := ⟨500, errorBody "Failed to check status" ("Error: " ++ msg),
                       jsonHeaders⟩,
          containerKey := some jid, forwarded := some req, healthChecked := false }
  else if jsStartsWith req.pathname "/download/".data ∧ req.method = "GET" then
    let jid := (splitSecond "/download/".data req.pathname).getD []
    match oc with
    | .responds r =>
        { response := r, containerKey := some jid,
          forwarded := some req, healthChecked := false }
    | .timedOut =>
        { response := ⟨500, errorBody "Failed to download video" "Error: Download timeout",
                       jsonHeaders⟩,
          containerKey := some jid, forwarded := some req, healthChecked := false }
    | .failed msg =>
        { response := ⟨500, errorBody "Failed to download video" ("Error: " ++ msg),
                       jsonHeaders⟩,
          containerKey := some jid, forwarded := some req, healthChecked := false }
  else
    { response := ⟨404, workerNotFoundBody, jsonHeaders⟩,
      containerKey := none, forwarded := none, healthChecked := false }

/-- Modelled from the spec: job status, `Processing | Complete | Failed`
(terminal: `Complete`, `Failed`).  The Rust core server holding the job
registry is not among the sources; only the edge worker is. -/
inductive JStatus where
  | processing
  | complete
  | failed
deriving DecidableEq, Repr

/-- Modelled from the spec: the mutable fields of a Job record — `status`,
`progress` (0–100), `output_path` (set only on success), `error` (set only on
`Failed`), `detected_color` (optional best-effort enrichment). -/
structure Job where
  status : JStatus
  progress : Nat
  outputPath : Option String
  error : Option String
  detectedColor : Option String
deriving DecidableEq, Repr

/-- Modelled from the spec: the progress value the orchestrator derives from
one encoder status line, `min(99, floor(100 * processed_duration /
total_duration))`; natural-number division floors. -/
def parserProgress (processed total : Nat) : Nat :=
  min 99 (100 * processed / total)

/-- Modelled from the spec: the job record created by the upload handler,
`state = Processing`, `progress = 0`, nothing else set. -/
def initJob : Job := ⟨.processing, 0, none, none, none⟩

/-- Modelled from the spec: the operations of the single owning orchestration
task that ever mutate a job record — publishing a parsed progress value,
attaching a best-effort sampled color, the `Complete` transition (which sets
progress 100 and the output path atomically with the status change), and the
`Failed` transition (which attaches a diagnostic).  Readers never mutate, and
every mutation requires the job to still be `Processing`. -/
inductive OrchStep : Job → Job → Prop where
  | publish (j : Job) (processed total : Nat) (h : j.status = .processing) :
      OrchStep j { j with progress := parserProgress processed total }
  | sample (j : Job) (color : String) (h : j.status = .processing) :
      OrchStep j { j with detectedColor := some color }
  | complete (j : Job) (out : String) (h : j.status = .processing) :
      OrchStep j { j with status := .complete, progress := 100, outputPath := some out }
  | fail (j : Job) (msg : String) (h : j.status = .processing) :
      OrchStep j { j with status := .failed, error := some msg }

/-- Modelled from the spec: the job records reachable from creation through
the orchestrator's mutations. -/
inductive Reach : Job → Prop where
  | init : Reach initJob
  | step {j j' : Job} (h : Reach j) (s : OrchStep j j') : Reach j'

/-- Rendering of a job status in status responses. -/
def statusText : JStatus → String
  | .processing => "processing"
  | .complete => "complete"
  | .failed => "failed"

/-- Modelled from the spec: the core server's `status(job id)` handler over
its registry — `\x7bstatus, progress, detected_color?\x7d` for a known id,
NotFound (404) for an unknown or evicted id. -/
def coreStatus (reg : List (String × Job)) (id : String) : WResponse :=
  match reg.lookup id with
  | none => ⟨404, jsonObj [("error", "Job not found")], jsonHeaders⟩
  | some j =>
    ⟨200,
     jsonObj ([("status", statusText j.status), ("progress", toString j.progress)] ++
       (match j.detectedColor with
        | some c => [("detected_color", c)]
        | none => [])),
     jsonHeaders⟩

/-- Modelled from the spec: the core server's `fetch_output(job id)` handler —
the output bytes with `Content-Type: video/webm` (plus the detected-color
header when present) once `Complete`, a not-ready conflict before that, and
NotFound (404) for an unknown or evicted id. -/
def coreDownload (reg : List (String × Job)) (id : String) : WResponse :=
  match reg.lookup id with
  | none => ⟨404, jsonObj [("error", "Job not found")], jsonHeaders⟩
  | some j =>
    match j.status with
    | .complete =>
      ⟨200, (j.outputPath).getD "",
       ("content-type", "video/webm") ::
         (match j.detectedColor with
          | some c => [("x-detected-color", c)]
          | none => [])⟩
    | _ => ⟨409, jsonObj [("error", "Job not complete")], jsonHeaders⟩

/-- Model of one value drawn from `crypto.randomUUID()`: the platform
primitive is modelled as an injective fresh-identifier supply (the
probabilistic collision-freedom of v4 UUIDs taken as an assumption of the
model); the draw depends only on the supply state, never on the request or
its file content. -/
def uuidStr (n : Nat) : String := String.mk (List.replicate (n + 1) 'u')

/-- Model of `crypto.randomUUID()` (`src/worker/index.ts:66`): returns a
fresh identifier and the advanced supply. -/
def randomUUID (s : Nat) : String × Nat := (uuidStr s, s + 1)

/-- Model of a sequence of `n` upload (submit) calls: each invocation of the
upload route draws one fresh id from the supply (`src/worker/index.ts:66`),
independently of the uploaded bytes; the list collects the ids issued. -/
def submitSeq : Nat → Nat → List String
  | 0, _ => []
  | n + 1, s => (randomUUID s).1 :: submitSeq n (randomUUID s).2

/-! Helper lemmas. -/

theorem append_ne {a b : List Char} (id : List Char) (h : b.length < a.length) :
    a ++ id ≠ b := by
  intro he
  have hl := congrArg List.length he
  rw [List.length_append] at hl
  omega

theorem isPrefixOf_append_self (l m : List Char) : l.isPrefixOf (l ++ m) = true := by
  induction l with
  | nil => simp [List.isPrefixOf]
  | cons c cs ih => simp [List.isPrefixOf, ih]

theorem findSplit_append (sep id : List Char) (hs : sep ≠ []) :
    findSplit sep (sep ++ id) = some ([], id) := by
  cases sep with
  | nil => exact absurd rfl hs
  | cons c cs =>
    show findSplit (c :: cs) (c :: (cs ++ id)) = some ([], id)
    unfold findSplit
    rw [if_pos]
    · have hdrop : (c :: (cs ++ id)).drop (c :: cs).length = id := by
        simp [List.drop_left]
      rw [hdrop]
    · exact isPrefixOf_append_self (c :: cs) id

theorem splitSecond_append (sep id : List Char) (hs : sep ≠ [])
    (h : findSplit sep id = none) : splitSecond sep (sep ++ id) = some id := by
  unfold splitSecond
  rw [findSplit_append sep id hs]
  show (match findSplit sep id with
        | none => some id
        | some (chunk, _) => some chunk) = some id
  rw [h]

theorem workerFetch_upload (u : String) (hs : List (String × String)) (b : Option String)
    (jid : String) (oc : ContainerOutcome) :
    workerFetch ⟨u, "/upload".data, "POST", hs, b⟩ jid oc =
      { response :=
          match oc with
          | .responds r => r
          | .timedOut => uploadCatch "Upload timeout"
          | .failed msg => uploadCatch msg,
        containerKey := some jid.data,
        forwarded := some ⟨u, "/upload".data, "POST",
          headersAppendCombine hs "x-job-id" jid, b⟩,
        healthChecked := false } := by
  unfold workerFetch
  dsimp only
  rw [if_neg (show ¬("/upload".data = "/health".data) by decide), if_pos ⟨rfl, rfl⟩]
  cases oc <;> rfl

theorem workerFetch_status (u : String) (p : List Char) (hs : List (String × String))
    (b : Option String) (jid : String) (oc : ContainerOutcome)
    (h0 : p ≠ "/health".data) (h2 : jsStartsWith p "/status/".data = true) :
    workerFetch ⟨u, p, "GET", hs, b⟩ jid oc =
      { response :=
          match oc with
          | .responds r => r
          | .timedOut =>
              ⟨500, errorBody "Failed to check status" "Error: Status check timeout",
               jsonHeaders⟩
          | .failed msg =>
              ⟨500, errorBody "Failed to check status" ("Error: " ++ msg), jsonHeaders⟩,
        containerKey := some ((splitSecond "/status/".data p).getD []),
        forwarded := some ⟨u, p, "GET", hs, b⟩,
        healthChecked := false } := by
  unfold workerFetch
  dsimp only
  rw [if_neg h0,
    if_neg (show ¬(p = "/upload".data ∧ ("GET" : String) = "POST") from
      fun hh => absurd hh.2 (by decide)),
    if_pos ⟨h2, rfl⟩]
  cases oc <;> rfl

theorem workerFetch_download (u : String) (p : List Char) (hs : List (String × String))
    (b : Option String) (jid : String) (oc : ContainerOutcome)
    (h0 : p ≠ "/health".data) (h2 : jsStartsWith p "/status/".data = false)
    (h3 : jsStartsWith p "/download/".data = true) :
    workerFetch ⟨u, p, "GET", hs, b⟩ jid oc =
      { response :=
          match oc with
          | .responds r => r
          | .timedOut =>
              ⟨500, errorBody "Failed to download video" "Error: Download timeout",
               jsonHeaders⟩
          | .failed msg =>
              ⟨500, errorBody "Failed to download video" ("Error: " ++ msg), jsonHeaders⟩,
        containerKey := some ((splitSecond "/download/".data p).getD []),
        forwarded := some ⟨u, p, "GET", hs, b⟩,
        healthChecked := false } := by
  unfold workerFetch
  dsimp only
  rw [if_neg h0,
    if_neg (show ¬(p = "/upload".data ∧ ("GET" : String) = "POST") from
      fun hh => absurd hh.2 (by decide)),
    if_neg (show ¬(jsStartsWith p "/status/".data = true ∧ ("GET" : String) = "GET") from
      fun hh => by rw [h2] at hh; exact absurd hh.1 (by decide)),
    if_pos ⟨h3, rfl⟩]
  cases oc <;> rfl

theorem getHealthyContainerAux_spec (outcome : Nat → AttemptOutcome) :
    ∀ fuel attempt i, getHealthyContainerAux outcome attempt fuel = some i →
      i < attempt + fuel ∧ outcome i = .healthy := by
  intro fuel
  induction fuel with
  | zero => intro attempt i h; exact absurd h (by simp [getHealthyContainerAux])
  | succ f ih =>
    intro attempt i h
    unfold getHealthyContainerAux at h
    cases hoc : outcome attempt with
    | healthy =>
      rw [hoc] at h
      obtain rfl : attempt = i := by simpa using h
      exact ⟨by omega, hoc⟩
    | unhealthy =>
      rw [hoc] at h
      obtain ⟨h1, h2⟩ := ih (attempt + 1) i h
      exact ⟨by omega, h2⟩
    | errored =>
      rw [hoc] at h
      obtain ⟨h1, h2⟩ := ih (attempt + 1) i h
      exact ⟨by omega, h2⟩

theorem headersAppendCombine_of_absent (hs : List (String × String)) (n v : String)
    (h : hs.lookup n = none) : headersAppendCombine hs n v = hs ++ [(n, v)] := by
  induction hs with
  | nil => rfl
  | cons p t ih =>
    obtain ⟨m, w⟩ := p
    by_cases hmn : m = n
    · have hb : (n == m) = true := beq_iff_eq.mpr hmn.symm
      simp [List.lookup, hb] at h
    · have hb : (n == m) = false := by
        rw [beq_eq_false_iff_ne]
        exact fun he => hmn he.symm
      simp only [List.lookup, hb] at h
      rw [headersAppendCombine, if_neg hmn, ih h]
      rfl

theorem uuidStr_injective : Function.Injective uuidStr := by
  intro a b h
  have hd : List.replicate (a + 1) 'u' = List.replicate (b + 1) 'u' := congrArg String.data h
  have hl := congrArg List.length hd
  simp [List.length_replicate] at hl
  exact hl

theorem mem_submitSeq_ge : ∀ (n s : Nat) (x : String), x ∈ submitSeq n s →
    ∃ k, s ≤ k ∧ x = uuidStr k := by
  intro n
  induction n with
  | zero => intro s x h; exact absurd h (by simp [submitSeq])
  | succ m ih =>
    intro s x h
    rw [submitSeq] at h
    rcases List.mem_cons.mp h with h1 | h1
    · exact ⟨s, le_refl s, h1⟩
    · obtain ⟨k, hk1, hk2⟩ := ih (s + 1) x h1
      exact ⟨k, by omega, hk2⟩

/-! Concrete fixtures used by witnesses and counterexamples. -/

/-- A concrete container response. -/
def okResp : WResponse := ⟨200, "body", []⟩

/-- A concrete upload request. -/
def upReq : WRequest :=
  ⟨"https://w.example/upload", "/upload".data, "POST",
   [("content-type", "video/mp4")], some "bytes"⟩

/-- A concrete health request. -/
def hlReq : WRequest := ⟨"https://w.example/health", "/health".data, "GET", [], none⟩

/-- A concrete upload request that already carries an `X-Job-Id` header. -/
def jobbedReq : WRequest :=
  ⟨"https://w.example/upload", "/upload".data, "POST", [("x-job-id", "old")], some "B"⟩

/-! Claims. -/

/-- C1: for every status request and every download (fetch_output) request,
the worker selects the container instance by the job id taken from the
request path, via `getContainer` keyed on that id, the same keying used when
the job id was generated at submit — so all requests for one job id are
routed to the same instance. -/
theorem c1_affinity (id : List Char) (u1 u2 u3 : String)
    (hs1 hs2 hs3 : List (String × String)) (b1 b2 b3 : Option String)
    (jid : String) (ocU ocS ocD : ContainerOutcome)
    (hid1 : findSplit "/status/".data id = none)
    (hid2 : findSplit "/download/".data id = none) :
    (workerFetch ⟨u1, "/upload".data, "POST", hs1, b1⟩ (String.mk id) ocU).containerKey =
      some id ∧
    (workerFetch ⟨u2, "/status/".data ++ id, "GET", hs2, b2⟩ jid ocS).containerKey =
      some id ∧
    (workerFetch ⟨u3, "/download/".data ++ id, "GET", hs3, b3⟩ jid ocD).containerKey =
      some id := by
  refine ⟨?_, ?_, ?_⟩
  · rw [workerFetch_upload]
  · have h0 : ("/status/".data ++ id) ≠ "/health".data := append_ne id (by decide)
    have h2 : jsStartsWith ("/status/".data ++ id) "/status/".data = true :=
      isPrefixOf_append_self _ _
    rw [workerFetch_status u2 _ hs2 b2 jid ocS h0 h2]
    dsimp only
    rw [splitSecond_append "/status/".data id (by decide) hid1]
    rfl
  · have h0 : ("/download/".data ++ id) ≠ "/health".data := append_ne id (by decide)
    have h2 : jsStartsWith ("/download/".data ++ id) "/status/".data = false := rfl
    have h3 : jsStartsWith ("/download/".data ++ id) "/download/".data = true :=
      isPrefixOf_append_self _ _
    rw [workerFetch_download u3 _ hs3 b3 jid ocD h0 h2 h3]
    dsimp only
    rw [splitSecond_append "/download/".data id (by decide) hid2]
    rfl

/-- C1 witness at the concrete job id `abc`. -/
theorem c1_affinity_witness :
    (workerFetch ⟨"https://w.example/status/abc", "/status/".data ++ "abc".data, "GET",
        [], none⟩ "j" ContainerOutcome.timedOut).containerKey = some "abc".data :=
  (c1_affinity "abc".data "u" "https://w.example/status/abc" "d" [] [] [] none none none
    "j" ContainerOutcome.timedOut ContainerOutcome.timedOut ContainerOutcome.timedOut
    (by decide) (by decide)).2.1

/-- C3: the worker imposes a 25-second request-level timeout on every upload;
when the container responds within the timeout its response is returned
unchanged, and when the timeout fires first the caller receives an HTTP 504
timeout error (not an indication that the job itself failed). -/
theorem c3_upload_timeout (u : String) (hs : List (String × String)) (b : Option String)
    (jid : String) (resp : WResponse) :
    uploadTimeoutMs = 25 * 1000 ∧
    (workerFetch ⟨u, "/upload".data, "POST", hs, b⟩ jid
        (ContainerOutcome.responds resp)).response = resp ∧
    (workerFetch ⟨u, "/upload".data, "POST", hs, b⟩ jid
        ContainerOutcome.timedOut).response =
      ⟨504, errorBody "Upload timeout - file too large" "Upload timeout", jsonHeaders⟩ := by
  refine ⟨rfl, ?_, ?_⟩
  · rw [workerFetch_upload]
  · rw [workerFetch_upload]
    show uploadCatch "Upload timeout" = _
    rw [uploadCatch, if_pos (by decide)]

/-- C4: every submit (upload) call draws its own fresh job id from the id
supply, independently of the uploaded content, and the ids issued by any
sequence of submit calls are pairwise distinct. -/
theorem c4_distinct_ids : ∀ (n s : Nat), (submitSeq n s).Nodup := by
  intro n
  induction n with
  | zero => intro s; simp [submitSeq]
  | succ m ih =>
    intro s
    rw [submitSeq]
    refine List.nodup_cons.mpr ⟨?_, ih (s + 1)⟩
    intro hmem
    obtain ⟨k, hk1, hk2⟩ := mem_submitSeq_ge m (s + 1) _ hmem
    have heq : uuidStr s = uuidStr k := hk2
    have := uuidStr_injective heq
    omega

/-- C8: every request whose path is `/health` receives a 200 response with
body `\x7b"status":"ok"\x7d`, independent of the method, of any job state and
of any container (no container key, nothing forwarded). -/
theorem c8_health_route (req : WRequest) (jid : String) (oc : ContainerOutcome)
    (h : req.pathname = "/health".data) :
    workerFetch req jid oc =
      ⟨⟨200, jsonObj [("status", "ok")], jsonHeaders⟩, none, none, false⟩ ∧
    jsonObj [("status", "ok")] = "\x7b\"status\":\"ok\"\x7d" := by
  constructor
  · obtain ⟨u, p, m, hs, b⟩ := req
    dsimp only at h
    subst h
    unfold workerFetch
    dsimp only
    rw [if_pos rfl]
  · decide

/-- C8 witness at a concrete health request. -/
theorem c8_health_route_witness :
    workerFetch hlReq "j" ContainerOutcome.timedOut =
      ⟨⟨200, jsonObj [("status", "ok")], jsonHeaders⟩, none, none, false⟩ :=
  (c8_health_route hlReq "j" ContainerOutcome.timedOut rfl).1

/-- C10: when the upload route's forwarding fails with a thrown error, the
response is 504 with error text `Upload timeout - file too large` exactly
when the error message contains the substring `timeout`; any other failure
yields 500 with error text `Upload failed`; both carry a JSON body. -/
theorem c10_upload_error_mapping (u : String) (hs : List (String × String))
    (b : Option String) (jid msg : String) :
    ((workerFetch ⟨u, "/upload".data, "POST", hs, b⟩ jid
        (ContainerOutcome.failed msg)).response =
          ⟨504, errorBody "Upload timeout - file too large" msg, jsonHeaders⟩ ↔
      jsIncludes msg "timeout" = true) ∧
    (jsIncludes msg "timeout" = false →
      (workerFetch ⟨u, "/upload".data, "POST", hs, b⟩ jid
        (ContainerOutcome.failed msg)).response =
          ⟨500, errorBody "Upload failed" msg, jsonHeaders⟩) := by
  rw [workerFetch_upload]
  dsimp only
  constructor
  · constructor
    · intro h
      by_cases hb : jsIncludes msg "timeout" = true
      · exact hb
      · rw [uploadCatch, if_neg hb] at h
        exact absurd (congrArg WResponse.status h) (show ¬((500 : Nat) = 504) by decide)
    · intro hb
      rw [uploadCatch, if_pos hb]
  · intro hb
    rw [uploadCatch, if_neg (by simp [hb])]

/-- C10 witness at the concrete non-timeout error message `boom`. -/
theorem c10_upload_error_mapping_witness :
    (workerFetch ⟨"u", "/upload".data, "POST", [], none⟩ "j"
        (ContainerOutcome.failed "boom")).response =
      ⟨500, errorBody "Upload failed" "boom", jsonHeaders⟩ :=
  (c10_upload_error_mapping "u" [] none "j" "boom").2 (by decide)

/-- C2 counterexample: a concrete upload request is routed to a container
(`containerKey` is set) while `getHealthyContainer` never ran
(`healthChecked` is `false`), so the claim that every upload/status/download
request is preceded by a health check with retry/backoff is false on the
code. -/
theorem c2_counterexample :
    ((workerFetch upReq "j" (ContainerOutcome.responds okResp)).containerKey).isSome = true ∧
    (workerFetch upReq "j" (ContainerOutcome.responds okResp)).healthChecked = false := by
  decide

/-- C2 (amended): the routing layer defines a health-check helper with
retry/backoff — up to 3 attempts, 2-second health-check timeout, 1-second
pause between failed attempts, returning only a container whose health check
succeeded — but no route ever invokes it: upload, status and download
requests are routed to the container chosen by `getContainer` without any
health check. -/
theorem c2_amended_no_health_check :
    (∀ (req : WRequest) (jid : String) (oc : ContainerOutcome),
      (workerFetch req jid oc).healthChecked = false) ∧
    healthMaxRetries = 3 ∧ healthCheckTimeoutMs = 2000 ∧ healthRetryPauseMs = 1000 ∧
    (∀ (outcome : Nat → AttemptOutcome) (i : Nat),
      getHealthyContainer outcome = some i →
        i < 3 ∧ outcome i = AttemptOutcome.healthy) := by
  refine ⟨?_, rfl, rfl, rfl, ?_⟩
  · intro req jid oc
    obtain ⟨u, p, m, hs, b⟩ := req
    unfold workerFetch
    dsimp only
    repeat' split
    all_goals rfl
  · intro outcome i h
    have hh := getHealthyContainerAux_spec outcome healthMaxRetries 0 i h
    refine ⟨?_, hh.2⟩
    have h1 := hh.1
    simp [healthMaxRetries] at h1
    omega

/-- C2 (amended) witness at a concrete request and a concrete first-attempt
success of the helper. -/
theorem c2_amended_witness :
    (workerFetch hlReq "j" ContainerOutcome.timedOut).healthChecked = false ∧
    (0 < 3 ∧ (fun _ => AttemptOutcome.healthy) 0 = AttemptOutcome.healthy) :=
  ⟨c2_amended_no_health_check.1 hlReq "j" ContainerOutcome.timedOut,
   c2_amended_no_health_check.2.2.2.2 (fun _ => AttemptOutcome.healthy) 0 rfl⟩

/-- C9 counterexample: for an upload request that already carries an
`X-Job-Id` header, the forwarded request is not the incoming request with the
single header `X-Job-Id: fresh` added — the fresh id is combined into the
existing header's value instead. -/
theorem c9_counterexample :
    (workerFetch jobbedReq "fresh" (ContainerOutcome.responds okResp)).forwarded ≠
      some { jobbedReq with headers := jobbedReq.headers ++ [("x-job-id", "fresh")] } := by
  decide

/-- C9 (amended): the request the worker forwards to the container is
identical to the incoming request in URL, method and body; its headers are
the incoming headers with the fresh job id recorded under `X-Job-Id` — added
as a new header when the incoming request bears no `X-Job-Id`, and otherwise
combined (comma-joined) with the existing value rather than added. -/
theorem c9_amended_forwarding (u : String) (hs : List (String × String))
    (b : Option String) (jid : String) (oc : ContainerOutcome) :
    (workerFetch ⟨u, "/upload".data, "POST", hs, b⟩ jid oc).forwarded =
      some ⟨u, "/upload".data, "POST", headersAppendCombine hs "x-job-id" jid, b⟩ ∧
    (hs.lookup "x-job-id" = none →
      headersAppendCombine hs "x-job-id" jid = hs ++ [("x-job-id", jid)]) := by
  refine ⟨?_, headersAppendCombine_of_absent hs "x-job-id" jid⟩
  rw [workerFetch_upload]

/-- C9 (amended) witness: a concrete upload request without `X-Job-Id` is
forwarded with exactly that one header added. -/
theorem c9_amended_forwarding_witness :
    (workerFetch ⟨"https://w.example/upload", "/upload".data, "POST",
        [("accept", "a")], some "B"⟩ "f" ContainerOutcome.timedOut).forwarded =
      some ⟨"https://w.example/upload", "/upload".data, "POST",
        [("accept", "a"), ("x-job-id", "f")], some "B"⟩ := by
  have h := c9_amended_forwarding "https://w.example/upload" [("accept", "a")]
    (some "B") "f" ContainerOutcome.timedOut
  rw [h.1, h.2 (by decide)]
  rfl

/-- C5: every progress value the orchestrator publishes from the encoder's
status stream equals `min(99, floor(100 * processed / total))`, and no
reachable job state shows progress 100 without being `Complete` — 100 is set
only together with the `Complete` transition. -/
theorem c5_progress (processed total : Nat) :
    parserProgress processed total = min 99 (100 * processed / total) ∧
    (∀ j : Job, Reach j → j.progress = 100 → j.status = JStatus.complete) := by
  refine ⟨rfl, ?_⟩
  intro j hr
  induction hr with
  | init => intro h; exact absurd h (by simp [initJob])
  | step hr hstep ih =>
    cases hstep with
    | publish processed2 total2 h =>
      intro h100
      dsimp only at h100
      have hle : parserProgress processed2 total2 ≤ 99 := min_le_left _ _
      exact absurd h100 (by omega)
    | sample color h =>
      intro h100
      have hc := ih h100
      rw [h] at hc
      exact JStatus.noConfusion hc
    | complete out h =>
      intro _
      rfl
    | fail msg h =>
      intro h100
      have hc := ih h100
      rw [h] at hc
      exact JStatus.noConfusion hc

/-- C5 witness: the formula at a concrete sample, and a concrete reachable
completed job whose progress-100 state is indeed `Complete`. -/
theorem c5_progress_witness :
    parserProgress 1 2 = min 99 (100 * 1 / 2) ∧
    Job.status ⟨JStatus.complete, 100, some "out", none, none⟩ = JStatus.complete :=
  ⟨(c5_progress 1 2).1,
   (c5_progress 1 2).2 ⟨JStatus.complete, 100, some "out", none, none⟩
     (Reach.step Reach.init (OrchStep.complete initJob "out" rfl)) rfl⟩

/-- C6: the status of a job only ever transitions `Processing → Complete` or
`Processing → Failed`; every mutation requires the `Processing` state, so
once a job is terminal no operation changes its status, progress or other
mutable fields again. -/
theorem c6_transitions :
    (∀ j j' : Job, OrchStep j j' → j.status = JStatus.processing) ∧
    (∀ j j' : Job, OrchStep j j' → j'.status ≠ j.status →
      j.status = JStatus.processing ∧
      (j'.status = JStatus.complete ∨ j'.status = JStatus.failed)) ∧
    (∀ j j' : Job, (j.status = JStatus.complete ∨ j.status = JStatus.failed) →
      ¬ OrchStep j j') := by
  refine ⟨?_, ?_, ?_⟩
  · intro j j' hstep
    cases hstep <;> assumption
  · intro j j' hstep hne
    cases hstep with
    | publish processed2 total2 h => exact absurd rfl hne
    | sample color h => exact absurd rfl hne
    | complete out h => exact ⟨h, Or.inl rfl⟩
    | fail msg h => exact ⟨h, Or.inr rfl⟩
  · intro j j' hterm hstep
    have hp : j.status = JStatus.processing := by cases hstep <;> assumption
    rcases hterm with h1 | h1 <;> rw [h1] at hp <;> exact JStatus.noConfusion hp

/-- C6 witness: a concrete `Processing → Complete` step, and no step out of
the resulting terminal state. -/
theorem c6_transitions_witness :
    Job.status initJob = JStatus.processing ∧
    ¬ OrchStep ⟨JStatus.complete, 100, some "o", none, none⟩ initJob :=
  ⟨c6_transitions.1 initJob ⟨JStatus.complete, 100, some "o", none, none⟩
     (OrchStep.complete initJob "o" rfl),
   c6_transitions.2.2 ⟨JStatus.complete, 100, some "o", none, none⟩ initJob
     (Or.inl rfl)⟩

/-- C7: a status or download (fetch_output) request for a job id unknown to
the registry (never issued, or already evicted) yields exactly the NotFound
404 response — never stale data or a different error class — and the worker
returns the container's response unchanged. -/
theorem c7_unknown_id (reg : List (String × Job)) (id : String)
    (u : String) (p : List Char) (hs : List (String × String)) (b : Option String)
    (jid : String)
    (h : reg.lookup id = none)
    (h0 : p ≠ "/health".data)
    (h2 : jsStartsWith p "/status/".data = true) :
    coreStatus reg id = ⟨404, jsonObj [("error", "Job not found")], jsonHeaders⟩ ∧
    coreDownload reg id = ⟨404, jsonObj [("error", "Job not found")], jsonHeaders⟩ ∧
    (workerFetch ⟨u, p, "GET", hs, b⟩ jid
        (ContainerOutcome.responds (coreStatus reg id))).response = coreStatus reg id := by
  refine ⟨?_, ?_, ?_⟩
  · unfold coreStatus
    rw [h]
  · unfold coreDownload
    rw [h]
  · rw [workerFetch_status u p hs b jid _ h0 h2]

/-- C7 witness at the empty registry and the concrete unknown id `x`. -/
theorem c7_unknown_id_witness :
    coreStatus [] "x" = ⟨404, jsonObj [("error", "Job not found")], jsonHeaders⟩ ∧
    coreDownload [] "x" = ⟨404, jsonObj [("error", "Job not found")], jsonHeaders⟩ :=
  ⟨(c7_unknown_id [] "x" "https://w.example/status/x" "/status/x".data [] none "j"
      rfl (by decide) (by decide)).1,
   (c7_unknown_id [] "x" "https://w.example/status/x" "/status/x".data [] none "j"
      rfl (by decide) (by decide)).2.1⟩

end Webm
